import Mathlib

/-!
Shallow embedding of the eBay sale-reconciliation scripts
(ebay_sale_project.py, tradingAPI_FinanceAPI_Merge.py, refund_logic.py,
finance_api_test.py).

Monetary values are embedded as rationals.  A Python
`Decimal(...).quantize(Decimal('0.01'), rounding=ROUND_HALF_UP)` step is
embedded as `quantize2`: multiply by 100, round to the nearest integer with
ties away from zero, divide by 100.  All Decimal arithmetic in the scripts
(addition, subtraction, multiplication by the exact decimal 0.02, division by
an integer quantity) is exact rational arithmetic at the precision relevant
to a 2-decimal quantization, so the rational embedding is faithful.
-/

namespace EbayAPI

/-- ROUND_HALF_UP of a rational to an integer: nearest integer, ties away
from zero (Python decimal's ROUND_HALF_UP). -/
def roundHalfUpZ (q : ℚ) : ℤ :=
  if 0 ≤ q then ⌊q + 1 / 2⌋ else -⌊-q + 1 / 2⌋

/-- Embedding of `Decimal.quantize(Decimal('0.01'), rounding=ROUND_HALF_UP)`. -/
def quantize2 (q : ℚ) : ℚ :=
  (roundHalfUpZ (q * 100) : ℚ) / 100

/-- The exact rational value of the IEEE-754 binary64 float literal `0.30`
(the scripts write `Decimal(0.30)`, i.e. Decimal of a float). -/
def pyFloat_0_30 : ℚ := 5404319552844595 / 18014398509481984

/-- The exact rational value of the IEEE-754 binary64 float literal `0.40`. -/
def pyFloat_0_40 : ℚ := 3602879701896397 / 9007199254740992

/-- Embedding of
`Decimal(0.30 if sale_price <= Decimal('10.00') else 0.40).quantize(Decimal('0.01'), rounding=ROUND_HALF_UP)`
(ebay_sale_project.py line 123, tradingAPI_FinanceAPI_Merge.py line 112). -/
def insertionFee (salePrice : ℚ) : ℚ :=
  quantize2 (if salePrice ≤ 10 then pyFloat_0_30 else pyFloat_0_40)

/-- The five transaction-level amounts that process_sales_data extracts with
extract_decimal (each already quantized to 2 decimals by the extractor). -/
structure TxAmounts where
  itemPrice : ℚ
  shippingCost : ℚ
  salesTax : ℚ
  finalValueFee : ℚ
  handlingCost : ℚ
deriving DecidableEq, Repr

/-- All quantities computed for one transaction by
ebay_sale_project.process_sales_data (lines 110-149).  The CSV export keeps
only SalePrice, NetSaleWithoutAdFee and NetSaleWithAdFee; adFee and
insertion fee are computed (and logged) on the way. -/
structure PerOrderRow where
  salePrice : ℚ
  adFee : ℚ
  insFee : ℚ
  netSaleWithoutAdFee : ℚ
  netSaleWithAdFee : ℚ
deriving DecidableEq, Repr

/-- Body of the per-transaction loop of ebay_sale_project.process_sales_data:
sale price is the plain sum of the four amounts, ad fee is 2 percent of it
quantized, insertion fee is tiered at 10.00, and the two net figures are
quantized after the full subtraction chain. -/
def perOrderRow (t : TxAmounts) : PerOrderRow :=
  let salePrice := t.itemPrice + t.shippingCost + t.salesTax + t.handlingCost
  let adFee := quantize2 (salePrice * (2 / 100))
  let insFee := insertionFee salePrice
  let netWithout :=
    quantize2 (salePrice - t.salesTax - t.finalValueFee - insFee - t.shippingCost)
  let netWith := quantize2 (netWithout - adFee)
  ⟨salePrice, adFee, insFee, netWithout, netWith⟩

/-! ## Decimal extractor (`extract_decimal` in both scripts)

Python nested API records are embedded as `JVal`: a record (dict) of
key/value pairs, or a plain string leaf.  `dict.get(key, {})` on a missing
key yields an empty dict; calling `.get` on a non-dict value raises an
AttributeError; `Decimal(s)` on an unparseable string raises an
InvalidOperation (the spec's MalformedAmount); `Decimal` applied to a
non-string, non-numeric object raises a TypeError. -/

inductive JVal where
  | dict : List (String × JVal) → JVal
  | str : String → JVal

inductive ExtractErr where
  | attributeError
  | malformedAmount
  | typeError
deriving DecidableEq, Repr

/-- Embedding of `value.get(key, \x7b\x7d)`: on a dict, look the key up falling back to the
empty dict; on a string leaf this raises AttributeError. -/
def jGet : JVal → String → Except ExtractErr JVal
  | .dict kvs, k => .ok ((kvs.lookup k).getD (.dict []))
  | .str _, _ => .error .attributeError

/-- The `for key in key_path: value = value.get(key, {})` traversal loop. -/
def jTraverse : JVal → List String → Except ExtractErr JVal
  | v, [] => .ok v
  | v, k :: ks =>
    match jGet v k with
    | .ok v' => jTraverse v' ks
    | .error e => .error e

/-- Digit run to a natural number. -/
def digitsVal (cs : List Char) : ℕ :=
  cs.foldl (fun a c => 10 * a + (c.toNat - 48)) 0

/-- Parse an unsigned plain decimal numeral: digits, optionally followed by
a dot and digits, at least one digit overall. -/
def parseUnsignedDecimal (cs : List Char) : Option ℚ :=
  let ip := cs.takeWhile Char.isDigit
  let rest := cs.dropWhile Char.isDigit
  match rest with
  | [] => if ip.isEmpty then none else some (digitsVal ip)
  | '.' :: fp =>
    if fp.all Char.isDigit && !(ip.isEmpty && fp.isEmpty) then
      some ((digitsVal ip : ℚ) + (digitsVal fp : ℚ) / (10 ^ fp.length))
    else none
  | _ => none

/-- Embedding of `Decimal(s)` on a plain finite numeral string: optional sign, digits,
optional fraction.  Returns none when the string is not parseable. -/
def parseDecimal (s : String) : Option ℚ :=
  match s.data with
  | '-' :: cs => (parseUnsignedDecimal cs).map (fun q => -q)
  | '+' :: cs => parseUnsignedDecimal cs
  | cs => parseUnsignedDecimal cs

/-- Embedding of `Decimal(value.get('value', default)).quantize(Decimal('0.01'), ROUND_HALF_UP)`
applied to the traversal result: `.get` on a non-dict raises AttributeError,
`Decimal` of an unparseable string raises the MalformedAmount error, and
`Decimal` of a non-string object raises a TypeError. -/
def finalValueLookup (v : JVal) (dflt : String) : Except ExtractErr ℚ :=
  match v with
  | .str _ => .error .attributeError
  | .dict kvs =>
    match kvs.lookup "value" with
    | some (.dict _) => .error .typeError
    | some (.str s) =>
      match parseDecimal s with
      | some q => .ok (quantize2 q)
      | none => .error .malformedAmount
    | none =>
      match parseDecimal dflt with
      | some q => .ok (quantize2 q)
      | none => .error .malformedAmount

/-- Embedding of `extract_decimal(data, key_path, default='0')`
(ebay_sale_project.py lines 65-81, tradingAPI_FinanceAPI_Merge.py lines
60-64): traverse the key path with `.get(key, {})`, then look up the final
amount and quantize it. -/
def extract_decimal (data : JVal) (keyPath : List String) (dflt : String) :
    Except ExtractErr ℚ :=
  match jTraverse data keyPath with
  | .error e => .error e
  | .ok v => finalValueLookup v dflt

/-! ## Per-unit allocation engine
(`process_sales_data` in tradingAPI_FinanceAPI_Merge.py, lines 85-130).

A transaction is embedded with its extracted amounts (the outputs of the
`extract_decimal` calls on lines 97-103) plus the raw quantity field:
`QuantityPurchased` absent means `transaction.get('QuantityPurchased', 1)`
returns the default 1. -/

structure MergeTx where
  title : String
  quantityPurchased : Option ℕ
  itemPrice : ℚ
  shippingTotal : ℚ
  taxTotal : ℚ
  fvfTotal : ℚ
  handlingTotal : ℚ
deriving DecidableEq, Repr

/-- Embedding of `(total / quantity).quantize(Decimal('0.01'), ROUND_HALF_UP) if
quantity else Decimal('0.00')` (lines 105-108). -/
def perUnitAlloc (quantity : ℕ) (total : ℚ) : ℚ :=
  if quantity ≠ 0 then quantize2 (total / quantity) else 0

/-- One output row of the merged script's sales table (lines 117-128);
the COGS placeholder column is constant and omitted. -/
structure UnitRow where
  orderId : String
  title : String
  salePrice : ℚ
  netSaleWithoutAdFee : ℚ
  finalValueFee : ℚ
  insFee : ℚ
  shippingCost : ℚ
  handlingCost : ℚ
  salesTax : ℚ
deriving DecidableEq, Repr

/-- Body of the per-transaction loop (lines 95-128): divide each total cost
by the quantity and quantize, combine into the per-unit sale price, apply
the insertion-fee tier to the per-unit sale price, and emit one identical
row per unit via `for _ in range(quantity)`. -/
def perUnitRows (orderId : String) (t : MergeTx) : List UnitRow :=
  let quantity := t.quantityPurchased.getD 1
  let puShipping := perUnitAlloc quantity t.shippingTotal
  let puTax := perUnitAlloc quantity t.taxTotal
  let puFvf := perUnitAlloc quantity t.fvfTotal
  let puHandling := perUnitAlloc quantity t.handlingTotal
  let salePrice := quantize2 (t.itemPrice + puShipping + puTax + puHandling)
  let insFee := insertionFee salePrice
  let netWithout := quantize2 (salePrice - puTax - puFvf - insFee - puShipping)
  List.replicate quantity
    ⟨orderId, t.title, salePrice, netWithout, puFvf, insFee, puShipping, puHandling, puTax⟩

/-! ## Fee ingestion and matching
(`get_finance_transactions` lines 132-170, `get_ad_fees_dataframe` lines
172-186, and the `__main__` merge lines 203-214 of
tradingAPI_FinanceAPI_Merge.py). -/

/-- One reference entry of a finance FeeTransaction; a missing referenceId
is embedded as the empty string (both are falsy in the `if order_id:` test). -/
structure FeeRef where
  referenceType : String
  referenceId : String
deriving DecidableEq, Repr

/-- A finance-feed fee transaction: its reference list and the exact decimal
value of `amount.value` (default 0 when absent). -/
structure FeeTx where
  references : List FeeRef
  amount : ℚ
deriving DecidableEq, Repr

/-- One page of the fee-feed pagination: a 200 response carrying
transactions and a possible next link, or a non-200 response. -/
inductive Page where
  | ok : List FeeTx → Bool → Page
  | httpError : Page
deriving DecidableEq, Repr

/-- The pagination loop of `get_finance_transactions` (lines 151-168),
driven by the upstream's successive responses: a 200 page appends its
transactions and continues only when a next link is present; a non-200
page breaks out of the loop, returning what was accumulated so far. -/
def fetchPages : List Page → List FeeTx
  | [] => []
  | .httpError :: _ => []
  | .ok txs hasNext :: rest => txs ++ (if hasNext then fetchPages rest else [])

/-- Embedding of `get_ad_fees_dataframe` (lines 172-186): for each transaction, take the
first reference whose referenceType is ORDER_ID; if one exists and its
referenceId is truthy (non-empty), emit an (OrderID, AdFee) row with the
amount individually quantized to 2 decimals. -/
def getAdFees (txs : List FeeTx) : List (String × ℚ) :=
  txs.filterMap (fun tx =>
    match tx.references.find? (fun r => r.referenceType == "ORDER_ID") with
    | some r => if r.referenceId ≠ "" then some (r.referenceId, quantize2 tx.amount) else none
    | none => none)

/-- The final export row {Title, SalePrice, NetSale} (COGS placeholder
omitted); OrderID is dropped (line 214). -/
structure MergedRow where
  title : String
  salePrice : ℚ
  netSale : ℚ
deriving DecidableEq, Repr

/-- Embedding of `pd.merge(sales_data_df, ad_fees_df, on='OrderID', how='left')` followed
by `fillna(0)` and the per-row NetSale computation (lines 205-214): every
sales row is paired with every ad-fee row sharing its OrderID (one output
row per such pair, in order); a sales row with no matching fee row keeps a
single row with ad fee 0.  NetSale = quantize2(NetSaleWithoutAdFee − AdFee). -/
def mergeNetSale (sales : List UnitRow) (fees : List (String × ℚ)) : List MergedRow :=
  sales.flatMap (fun s =>
    match fees.filter (fun f => f.1 == s.orderId) with
    | [] => [⟨s.title, s.salePrice, quantize2 (s.netSaleWithoutAdFee - 0)⟩]
    | matched => matched.map (fun f => ⟨s.title, s.salePrice, quantize2 (s.netSaleWithoutAdFee - f.2)⟩))

/-- The error `pd.merge` can raise in the `__main__` pipeline: a KeyError
on the OrderID join column when one of the frames does not carry it. -/
inductive MergeErr where
  | keyErrorOrderId
deriving DecidableEq, Repr

/-- The merge step of `__main__` (lines 203-214) with the pandas column
check.  A DataFrame built from a nonempty list of row-dicts carries the
OrderID column, while `pd.DataFrame([])` carries no columns at all; only
the explicit fallback frame with declared columns — taken by the
`if ad_transactions` guard when the fetched transaction list is empty — is
both empty and columned.  `pd.merge(sales_data_df, ad_fees_df,
on='OrderID', how='left')` raises a KeyError when either frame lacks the
OrderID column, so the merge succeeds exactly when the sales frame is
nonempty and the ad-fees frame is either the fallback or has at least one
row; on success the result is `mergeNetSale`. -/
def reconcileMerge (adTxs : List FeeTx) (sales : List UnitRow) :
    Except MergeErr (List MergedRow) :=
  let feeRows := getAdFees adTxs
  if (adTxs.isEmpty || !feeRows.isEmpty) && !sales.isEmpty then
    .ok (mergeNetSale sales feeRows)
  else
    .error .keyErrorOrderId

/-- The fee half of the `__main__` pipeline (lines 198-214): fetch the fee
pages, turn them into ad-fee rows, and left-merge against the sales rows. -/
def mainMerged (pages : List Page) (sales : List UnitRow) :
    Except MergeErr (List MergedRow) :=
  reconcileMerge (fetchPages pages) sales

/-! ## Period resolver (`get_date_range`, both scripts)

Python `datetime` values are embedded as civil date-times `CivilDT`.
`datetime(y, m, 1) - timedelta(seconds=1)` is the civil borrow-chain
subtraction `subOneSecond` (pytz keeps arithmetic on the civil fields).
`pacific.localize(dt).astimezone(pytz.utc)` maps a civil Pacific time to an
absolute second count: `toSec dt + off` where `off` is the UTC offset pytz
assigns, 25200 seconds (PDT) or 28800 seconds (PST); the theorems quantify
over both so the result is independent of where DST falls.  `toSec` uses the
standard days-from-civil formula for the proleptic Gregorian calendar. -/

structure CivilDT where
  year : ℤ
  month : ℕ
  day : ℕ
  hour : ℕ
  minute : ℕ
  second : ℕ
deriving DecidableEq, Repr

/-- Gregorian leap-year test. -/
def isLeap (y : ℤ) : Bool := (y % 4 == 0 && y % 100 != 0) || y % 400 == 0

/-- Length of a civil month. -/
def daysInMonth (y : ℤ) (m : ℕ) : ℕ :=
  if m = 2 then (if isLeap y then 29 else 28)
  else if m = 4 ∨ m = 6 ∨ m = 9 ∨ m = 11 then 30 else 31

/-- Embedding of `dt - timedelta(seconds=1)` on the civil representation. -/
def subOneSecond (dt : CivilDT) : CivilDT :=
  if dt.second ≠ 0 then
    { dt with second := dt.second - 1 }
  else if dt.minute ≠ 0 then
    { dt with minute := dt.minute - 1, second := 59 }
  else if dt.hour ≠ 0 then
    { dt with hour := dt.hour - 1, minute := 59, second := 59 }
  else if dt.day ≠ 1 then
    { dt with day := dt.day - 1, hour := 23, minute := 59, second := 59 }
  else if dt.month ≠ 1 then
    ⟨dt.year, dt.month - 1, daysInMonth dt.year (dt.month - 1), 23, 59, 59⟩
  else
    ⟨dt.year - 1, 12, 31, 23, 59, 59⟩

/-- Embedding of `get_date_range(year, month)` (ebay_sale_project.py lines 43-62,
tradingAPI_FinanceAPI_Merge.py lines 47-58), at the civil-Pacific level:
start is the first instant of the month; end is the first instant of the
next month (January of year+1 after December) minus one second. -/
def getDateRange (y : ℤ) (m : ℕ) : CivilDT × CivilDT :=
  (⟨y, m, 1, 0, 0, 0⟩,
   subOneSecond (if m = 12 then ⟨y + 1, 1, 1, 0, 0, 0⟩ else ⟨y, m + 1, 1, 0, 0, 0⟩))

/-- Days since the civil epoch 1970-01-01 (Howard Hinnant's days-from-civil
formula, with floor division). -/
def daysFromCivil (y : ℤ) (m : ℕ) (d : ℕ) : ℤ :=
  let yShift := if m ≤ 2 then y - 1 else y
  let era := Int.fdiv yShift 400
  let yoe := yShift - era * 400
  let mp := ((m : ℤ) + 9) % 12
  let doy := Int.fdiv (153 * mp + 2) 5 + (d : ℤ) - 1
  let doe := yoe * 365 + Int.fdiv yoe 4 - Int.fdiv yoe 100 + doy
  era * 146097 + doe - 719468

/-- Seconds since the civil epoch of a civil date-time. -/
def toSec (dt : CivilDT) : ℤ :=
  86400 * daysFromCivil dt.year dt.month dt.day
    + 3600 * (dt.hour : ℤ) + 60 * (dt.minute : ℤ) + (dt.second : ℤ)

/-- The absolute UTC second of a civil Pacific time under a given UTC
offset (`astimezone(pytz.utc)` adds the offset pytz pinned at localize). -/
def utcSec (dt : CivilDT) (off : ℤ) : ℤ := toSec dt + off

/-! ## Helper lemmas -/

lemma quantize2_eq (q : ℚ) (n : ℤ) (h0 : 0 ≤ q) (h1 : (n : ℚ) ≤ q * 100 + 1 / 2)
    (h2 : q * 100 + 1 / 2 < n + 1) : quantize2 q = (n : ℚ) / 100 := by
  unfold quantize2 roundHalfUpZ
  rw [if_pos (by linarith : (0 : ℚ) ≤ q * 100)]
  have hf : ⌊q * 100 + 1 / 2⌋ = n := Int.floor_eq_iff.mpr ⟨h1, by exact_mod_cast h2⟩
  rw [hf]

lemma quantize2_pyFloat_0_30 : quantize2 pyFloat_0_30 = 30 / 100 := by
  rw [quantize2_eq pyFloat_0_30 30] <;> norm_num [pyFloat_0_30]

lemma quantize2_pyFloat_0_40 : quantize2 pyFloat_0_40 = 40 / 100 := by
  rw [quantize2_eq pyFloat_0_40 40] <;> norm_num [pyFloat_0_40]

/-- The float noise in `Decimal(0.30)` / `Decimal(0.40)` is erased by the
quantization: the insertion fee is exactly 0.30 on the lower tier
(sale price at most 10.00) and exactly 0.40 above it. -/
lemma insertionFee_eq (p : ℚ) :
    insertionFee p = if p ≤ 10 then 30 / 100 else 40 / 100 := by
  unfold insertionFee
  split
  · exact quantize2_pyFloat_0_30
  · exact quantize2_pyFloat_0_40

lemma quantize2_zero : quantize2 0 = 0 := by
  rw [quantize2_eq 0 0] <;> norm_num

/-- Traversing any key path from the empty dict stays at the empty dict. -/
lemma jTraverse_emptyDict (ks : List String) :
    jTraverse (.dict []) ks = .ok (.dict []) := by
  induction ks with
  | nil => rfl
  | cons k ks ih => simpa [jTraverse, jGet, List.lookup] using ih

lemma jTraverse_append (v : JVal) (ks₁ ks₂ : List String) :
    jTraverse v (ks₁ ++ ks₂) =
      match jTraverse v ks₁ with
      | .ok v' => jTraverse v' ks₂
      | .error e => .error e := by
  induction ks₁ generalizing v with
  | nil => rfl
  | cons k ks ih =>
    simp only [List.cons_append, jTraverse]
    cases jGet v k with
    | ok v' => exact ih v'
    | error e => rfl

lemma parseDecimal_zero : parseDecimal "0" = some 0 := by
  have h : parseDecimal "0" = some ((0 : ℕ) : ℚ) := rfl
  rw [h, Nat.cast_zero]

/-! ## Claim theorems -/

/-- C1: in per-order (estimated-fee) mode, a transaction with item price
20.00, shipping 5.00, tax 2.00, handling 0.00 and final-value fee 1.50
yields sale price 27.00, estimated ad fee 0.54 (2 percent of the sale
price, quantized half-up), insertion fee 0.40, net sale without ad fee
18.10, and net sale with ad fee 17.56. -/
theorem perOrder_endToEnd_scenario :
    perOrderRow ⟨20, 5, 2, 3 / 2, 0⟩ =
      ⟨27, 54 / 100, 40 / 100, 1810 / 100, 1756 / 100⟩ := by
  have hsp : (20 : ℚ) + 5 + 2 + 0 = 27 := by norm_num
  have had : quantize2 ((27 : ℚ) * (2 / 100)) = 54 / 100 := by
    rw [quantize2_eq _ 54] <;> norm_num
  have hins : insertionFee (27 : ℚ) = 40 / 100 := by
    rw [insertionFee_eq, if_neg (by norm_num)]
  have hnet : quantize2 ((27 : ℚ) - 2 - 3 / 2 - 40 / 100 - 5) = 1810 / 100 := by
    rw [quantize2_eq _ 1810] <;> norm_num
  have hnet2 : quantize2 ((1810 : ℚ) / 100 - 54 / 100) = 1756 / 100 := by
    rw [quantize2_eq _ 1756] <;> norm_num
  simp only [perOrderRow]
  rw [hsp, had, hins, hnet, hnet2]

/-- C2: in PER_UNIT allocation each of shipping, tax, final-value fee and
handling is divided by the quantity and quantized to 2 decimals before
being combined into the per-unit sale price and net sale; for quantity 3
and shipping total 3.01 the per-unit shipping is exactly 1.00 (three units
re-sum to 3.00, a deterministic one-cent drift), while shipping total 3.00
gives 1.00 with no drift; one identical output row is emitted per unit. -/
theorem perUnit_division_quantize_and_drift :
    (∀ (quantity : ℕ) (total : ℚ), quantity ≠ 0 →
        perUnitAlloc quantity total = quantize2 (total / quantity)) ∧
    (∀ (oid : String) (t : MergeTx),
        perUnitRows oid t =
          (let q := t.quantityPurchased.getD 1
           let sp := quantize2 (t.itemPrice + perUnitAlloc q t.shippingTotal
             + perUnitAlloc q t.taxTotal + perUnitAlloc q t.handlingTotal)
           List.replicate q
             { orderId := oid, title := t.title, salePrice := sp,
               netSaleWithoutAdFee := quantize2 (sp - perUnitAlloc q t.taxTotal
                 - perUnitAlloc q t.fvfTotal - insertionFee sp
                 - perUnitAlloc q t.shippingTotal),
               finalValueFee := perUnitAlloc q t.fvfTotal,
               insFee := insertionFee sp,
               shippingCost := perUnitAlloc q t.shippingTotal,
               handlingCost := perUnitAlloc q t.handlingTotal,
               salesTax := perUnitAlloc q t.taxTotal })) ∧
    perUnitAlloc 3 (301 / 100) = 1 ∧ (3 : ℚ) * 1 ≠ 301 / 100 ∧
    perUnitAlloc 3 3 = 1 ∧ (3 : ℚ) * 1 = 3 := by
  refine ⟨?_, ?_, ?_, by norm_num, ?_, by norm_num⟩
  · intro quantity total h
    unfold perUnitAlloc
    rw [if_pos h]
  · intro oid t
    rfl
  · unfold perUnitAlloc
    rw [if_pos (by norm_num), quantize2_eq _ 100] <;> norm_num
  · unfold perUnitAlloc
    rw [if_pos (by norm_num), quantize2_eq _ 100] <;> norm_num

/-- Witness for C2: the division-then-quantization shape applied at
quantity 3, shipping total 3.01. -/
theorem perUnit_division_quantize_and_drift_witness :
    perUnitAlloc 3 (301 / 100) = quantize2 (301 / 100 / ((3 : ℕ) : ℚ)) :=
  perUnit_division_quantize_and_drift.1 3 (301 / 100) (by norm_num)

/-- C3 counterexample: an order with two matched 1.00 and 2.00 ad-fee
transactions.  The claimed behaviour would charge their sum 3.00 against
the order, giving net sale 10.00 − 3.00 = 7.00; the code instead duplicates
the sales row once per fee, subtracting each fee individually (nets 9.00
and 8.00), and no output row carries the summed fee. -/
theorem adFees_not_summed_counterexample :
    mergeNetSale [⟨"O1", "T", 27, 10, 0, 0, 0, 0, 0⟩]
        (getAdFees [⟨[⟨"ORDER_ID", "O1"⟩], 1⟩, ⟨[⟨"ORDER_ID", "O1"⟩], 2⟩]) =
      [⟨"T", 27, 9⟩, ⟨"T", 27, 8⟩] ∧
    (7 : ℚ) ∉ (mergeNetSale [⟨"O1", "T", 27, 10, 0, 0, 0, 0, 0⟩]
        (getAdFees [⟨[⟨"ORDER_ID", "O1"⟩], 1⟩, ⟨[⟨"ORDER_ID", "O1"⟩], 2⟩])).map
          MergedRow.netSale := by
  have hq1 : quantize2 (1 : ℚ) = 1 := by
    rw [quantize2_eq _ 100] <;> norm_num
  have hq2 : quantize2 (2 : ℚ) = 2 := by
    rw [quantize2_eq _ 200] <;> norm_num
  have h9 : quantize2 ((10 : ℚ) - 1) = 9 := by
    rw [quantize2_eq _ 900] <;> norm_num
  have h8 : quantize2 ((10 : ℚ) - 2) = 8 := by
    rw [quantize2_eq _ 800] <;> norm_num
  have hfees : getAdFees [⟨[⟨"ORDER_ID", "O1"⟩], 1⟩, ⟨[⟨"ORDER_ID", "O1"⟩], 2⟩] =
      [("O1", quantize2 1), ("O1", quantize2 2)] := rfl
  have hmerge : mergeNetSale [⟨"O1", "T", 27, 10, 0, 0, 0, 0, 0⟩] [("O1", 1), ("O1", 2)] =
      [⟨"T", 27, quantize2 ((10 : ℚ) - 1)⟩, ⟨"T", 27, quantize2 ((10 : ℚ) - 2)⟩] := rfl
  constructor
  · rw [hfees, hq1, hq2, hmerge, h9, h8]
  · rw [hfees, hq1, hq2, hmerge, h9, h8]
    simp only [List.map_cons, List.map_nil, List.mem_cons, List.not_mem_nil]
    norm_num

/-- C3 amended: matched fees are not summed per order.  Each matched fee
transaction is individually quantized into its own (OrderID, AdFee) row,
and the left merge pairs every sales row with every matching fee row, so an
order with several matched fees yields one output row per fee, each net
figure subtracting that single fee amount only. -/
theorem adFees_per_fee_rows :
    (∀ (s : UnitRow) (fees : List (String × ℚ)) (f : String × ℚ),
        f ∈ fees → f.1 = s.orderId →
        (⟨s.title, s.salePrice, quantize2 (s.netSaleWithoutAdFee - f.2)⟩ : MergedRow)
          ∈ mergeNetSale [s] fees) ∧
    (∀ (s : UnitRow) (fees : List (String × ℚ)),
        fees.filter (fun f => f.1 == s.orderId) ≠ [] →
        (mergeNetSale [s] fees).length =
          (fees.filter (fun f => f.1 == s.orderId)).length) ∧
    (∀ (txs : List FeeTx) (tx : FeeTx) (r : FeeRef),
        tx ∈ txs →
        tx.references.find? (fun x => x.referenceType == "ORDER_ID") = some r →
        r.referenceId ≠ "" →
        (r.referenceId, quantize2 tx.amount) ∈ getAdFees txs) := by
  refine ⟨?_, ?_, ?_⟩
  · intro s fees f hf hid
    have hmem : f ∈ fees.filter (fun g => g.1 == s.orderId) :=
      List.mem_filter.mpr ⟨hf, by simp [hid]⟩
    unfold mergeNetSale
    simp only [List.flatMap_cons, List.flatMap_nil, List.append_nil]
    cases hfil : fees.filter (fun g => g.1 == s.orderId) with
    | nil => rw [hfil] at hmem; simp at hmem
    | cons a l =>
      rw [hfil] at hmem
      exact List.mem_map_of_mem _ hmem
  · intro s fees hne
    unfold mergeNetSale
    simp only [List.flatMap_cons, List.flatMap_nil, List.append_nil]
    cases hfil : fees.filter (fun g => g.1 == s.orderId) with
    | nil => exact absurd hfil hne
    | cons a l => simp
  · intro txs tx r htx hfind hne
    unfold getAdFees
    refine List.mem_filterMap.mpr ⟨tx, htx, ?_⟩
    simp only [hfind]
    rw [if_pos hne]

/-- Witness for C3 amended: one sales row and one matching 2.00 fee give an
output row subtracting exactly that fee. -/
theorem adFees_per_fee_rows_witness :
    (⟨"T", 27, quantize2 ((10 : ℚ) - 2)⟩ : MergedRow)
      ∈ mergeNetSale [⟨"O1", "T", 27, 10, 0, 0, 0, 0, 0⟩] [("O1", 2)] :=
  adFees_per_fee_rows.1 ⟨"O1", "T", 27, 10, 0, 0, 0, 0, 0⟩ [("O1", 2)] ("O1", 2)
    (by simp) rfl

/-- The fee-feed pagination loop breaks at a non-200 page, returning the
transactions accumulated from the earlier pages. -/
lemma fetchPages_stop (txs : List FeeTx) (rest : List Page) :
    fetchPages (Page.ok txs true :: Page.httpError :: rest) = txs := by
  simp [fetchPages]

/-- C4 counterexample: a fetch whose first page succeeds (one 2.00 ad fee
for order O2, with a next link) and whose second page returns non-200.  The
claim says the partial fee set is discarded by reconciliation; the code
instead feeds the partial set into the merge, so the order's output row
subtracts the 2.00 fee (net 8.00) rather than showing the zero-fee net
10.00. -/
theorem partial_fees_used_counterexample :
    mainMerged [Page.ok [⟨[⟨"ORDER_ID", "O2"⟩], 2⟩] true, Page.httpError]
        [⟨"O2", "S", 27, 10, 0, 0, 0, 0, 0⟩] = .ok [⟨"S", 27, 8⟩] ∧
    (8 : ℚ) ≠ quantize2 ((10 : ℚ) - 0) := by
  have hq2 : quantize2 (2 : ℚ) = 2 := by
    rw [quantize2_eq _ 200] <;> norm_num
  have h8 : quantize2 ((10 : ℚ) - 2) = 8 := by
    rw [quantize2_eq _ 800] <;> norm_num
  have h10 : quantize2 ((10 : ℚ) - 0) = 10 := by
    rw [quantize2_eq _ 1000] <;> norm_num
  constructor
  · have hstep : mainMerged [Page.ok [⟨[⟨"ORDER_ID", "O2"⟩], 2⟩] true, Page.httpError]
        [⟨"O2", "S", 27, 10, 0, 0, 0, 0, 0⟩] =
        .ok [⟨"S", 27, quantize2 ((10 : ℚ) - quantize2 2)⟩] := rfl
    rw [hstep, hq2, h8]
  · rw [h10]
    norm_num

/-- C4 amended: a non-200 response on any page stops the pagination at that
page, and the partially accumulated fee records from the earlier pages are
returned and used by the reconciliation step against the ingested orders
(they are not discarded): the reconciliation merge receives exactly the
partial accumulation. -/
theorem pagination_stops_partial_used :
    (∀ (txs : List FeeTx) (rest : List Page),
        fetchPages (Page.ok txs true :: Page.httpError :: rest) = txs) ∧
    (∀ (txs : List FeeTx) (rest : List Page) (sales : List UnitRow),
        mainMerged (Page.ok txs true :: Page.httpError :: rest) sales =
          reconcileMerge txs sales) := by
  refine ⟨fetchPages_stop, ?_⟩
  intro txs rest sales
  unfold mainMerged
  rw [fetchPages_stop]

/-- C5 counterexample: a transaction with QuantityPurchased equal to 0
emits no output row at all (the `for _ in range(quantity)` loop runs zero
times), while the claim says it is allocated and emitted like a
quantity-1 transaction, which emits one row. -/
theorem quantity_zero_drops_rows_counterexample :
    perUnitRows "O" ⟨"T", some 0, 5, 0, 0, 0, 0⟩ = [] ∧
    perUnitRows "O" ⟨"T", some 1, 5, 0, 0, 0, 0⟩ ≠ [] := by
  constructor
  · rfl
  · simp [perUnitRows]

/-- C5 amended: only an absent quantity field defaults to 1 (and the
transaction is then processed exactly like a quantity-1 transaction).  An
explicit quantity of 0 is kept: the `if quantity` guard sets every per-unit
cost to 0.00 so no division by zero ever happens, but the row-emission loop
runs zero times, so the transaction is dropped from the output rather than
emitted. -/
theorem quantity_default_and_zero_guard :
    (∀ (oid : String) (t : MergeTx), t.quantityPurchased = none →
        perUnitRows oid t = perUnitRows oid { t with quantityPurchased := some 1 }) ∧
    (∀ total : ℚ, perUnitAlloc 0 total = 0) ∧
    (∀ (oid : String) (t : MergeTx), t.quantityPurchased = some 0 →
        perUnitRows oid t = []) := by
  refine ⟨?_, ?_, ?_⟩
  · intro oid t h
    simp [perUnitRows, h]
  · intro total
    simp [perUnitAlloc]
  · intro oid t h
    simp [perUnitRows, h]

/-- Witness for C5 amended: an absent quantity behaves as quantity 1, and
an explicit quantity of 0 yields no rows. -/
theorem quantity_default_and_zero_guard_witness :
    perUnitRows "O" ⟨"T", none, 5, 0, 0, 0, 0⟩ =
      perUnitRows "O" ⟨"T", some 1, 5, 0, 0, 0, 0⟩ ∧
    perUnitRows "O" ⟨"T", some 0, 6, 0, 0, 0, 0⟩ = [] :=
  ⟨quantity_default_and_zero_guard.1 "O" ⟨"T", none, 5, 0, 0, 0, 0⟩ rfl,
   quantity_default_and_zero_guard.2.2 "O" ⟨"T", some 0, 6, 0, 0, 0, 0⟩ rfl⟩

/-- On a string leaf the traversal either stops immediately (empty
remaining path) or raises AttributeError at the next `.get`. -/
lemma jTraverse_str (s : String) (ks : List String) :
    jTraverse (.str s) ks = .ok (.str s) ∨
    jTraverse (.str s) ks = .error .attributeError := by
  cases ks with
  | nil => exact Or.inl rfl
  | cons k ks => exact Or.inr rfl

/-- C6 counterexample: in the record mapping key a to the plain string
oops, the key b is missing at depth 2 of the path [a, b], yet
extract_decimal raises an AttributeError (the Python `.get` is called on a
string) instead of returning the 0.00 default, and the failure is not the
MalformedAmount case. -/
theorem extract_decimal_missing_key_raises_counterexample :
    extract_decimal (.dict [("a", .str "oops")]) ["a", "b"] "0" =
      .error .attributeError ∧
    extract_decimal (.dict [("a", .str "oops")]) ["a", "b"] "0" ≠ .ok 0 := by
  constructor
  · rfl
  · simp [extract_decimal, jTraverse, jGet, List.lookup]

/-- C6 amended: as long as every lookup along the path happens on a record
(dict), a missing key at any depth makes the rest of the traversal fall
through empty dicts and extract_decimal returns the quantized default 0.00
without raising; a present but unparseable amount string is the
MalformedAmount failure; but a key present with a non-record value on the
path raises an AttributeError instead of falling back to the default. -/
theorem extract_decimal_missing_key_default :
    (∀ (v : JVal) (ks₁ : List String) (kvs : List (String × JVal)) (k : String)
        (ks₂ : List String),
        jTraverse v ks₁ = .ok (.dict kvs) → kvs.lookup k = none →
        extract_decimal v (ks₁ ++ k :: ks₂) "0" = .ok 0) ∧
    (∀ (kvs : List (String × JVal)) (s : String),
        kvs.lookup "value" = some (.str s) → parseDecimal s = none →
        extract_decimal (.dict kvs) [] "0" = .error .malformedAmount) ∧
    (∀ (kvs : List (String × JVal)) (k : String) (s : String) (ks : List String),
        kvs.lookup k = some (.str s) →
        extract_decimal (.dict kvs) (k :: ks) "0" = .error .attributeError) := by
  refine ⟨?_, ?_, ?_⟩
  · intro v ks₁ kvs k ks₂ h1 h2
    have ht : jTraverse v (ks₁ ++ k :: ks₂) = .ok (.dict []) := by
      rw [jTraverse_append, h1]
      simp [jTraverse, jGet, h2, jTraverse_emptyDict]
    simp [extract_decimal, ht, finalValueLookup, List.lookup, parseDecimal_zero,
      quantize2_zero]
  · intro kvs s h1 h2
    simp [extract_decimal, jTraverse, finalValueLookup, h1, h2]
  · intro kvs k s ks h
    have hg : jTraverse (.dict kvs) (k :: ks) = jTraverse (.str s) ks := by
      simp [jTraverse, jGet, h]
    rcases jTraverse_str s ks with h' | h' <;>
      simp [extract_decimal, hg, h', finalValueLookup]

/-- Witness for C6 amended: a missing nested key yields the 0.00 default,
and the unparseable string abc yields the MalformedAmount error. -/
theorem extract_decimal_missing_key_default_witness :
    extract_decimal (.dict [("Taxes", .dict [])]) ["Taxes", "TotalTaxAmount"] "0" =
      .ok 0 ∧
    extract_decimal (.dict [("value", .str "abc")]) [] "0" =
      .error .malformedAmount :=
  ⟨extract_decimal_missing_key_default.1 (.dict [("Taxes", .dict [])]) ["Taxes"] []
      "TotalTaxAmount" [] rfl rfl,
   extract_decimal_missing_key_default.2.1 [("value", .str "abc")] "abc" rfl rfl⟩

/-- C7: the insertion fee is 0.30 for every sale price at most 10.00
(exactly 10.00 included) and 0.40 above (10.01 gives 0.40); in PER_UNIT
mode every emitted row carries the fee of the per-unit sale price, and a
quantity-2 transaction with per-unit price 6.00 (transaction total 12.00)
gets the lower-tier fee 0.30. -/
theorem insertion_fee_tiering :
    (∀ p : ℚ, insertionFee p = if p ≤ 10 then 30 / 100 else 40 / 100) ∧
    insertionFee 10 = 30 / 100 ∧
    insertionFee (1001 / 100) = 40 / 100 ∧
    (∀ (oid : String) (t : MergeTx),
        (perUnitRows oid t).map UnitRow.insFee =
          List.replicate (t.quantityPurchased.getD 1)
            (insertionFee (quantize2 (t.itemPrice
              + perUnitAlloc (t.quantityPurchased.getD 1) t.shippingTotal
              + perUnitAlloc (t.quantityPurchased.getD 1) t.taxTotal
              + perUnitAlloc (t.quantityPurchased.getD 1) t.handlingTotal)))) ∧
    (perUnitRows "O" ⟨"T", some 2, 6, 0, 0, 0, 0⟩).map UnitRow.insFee =
      List.replicate 2 (30 / 100) := by
  refine ⟨insertionFee_eq, ?_, ?_, ?_, ?_⟩
  · rw [insertionFee_eq, if_pos (by norm_num)]
  · rw [insertionFee_eq, if_neg (by norm_num)]
  · intro oid t
    simp [perUnitRows, List.map_replicate]
  · have h0 : perUnitAlloc 2 (0 : ℚ) = 0 := by
      unfold perUnitAlloc
      rw [if_pos (by norm_num)]
      norm_num [quantize2_zero]
    have hsp : quantize2 ((6 : ℚ) + perUnitAlloc 2 0 + perUnitAlloc 2 0
        + perUnitAlloc 2 0) = 6 := by
      rw [h0]
      have h6 : (6 : ℚ) + 0 + 0 + 0 = 6 := by norm_num
      rw [h6, quantize2_eq _ 600] <;> norm_num
    simp only [perUnitRows, List.map_replicate, Option.getD_some]
    rw [hsp, insertionFee_eq, if_pos (by norm_num)]

/-- C10: a key that is present but maps to a non-record value (here the
plain string none under the key Taxes) makes extract_decimal raise an
AttributeError instead of returning the default: the no-raise fallback
covers only absent keys. -/
theorem extract_decimal_non_record_raises :
    extract_decimal (.dict [("Taxes", .str "none")]) ["Taxes", "TotalTaxAmount"] "0" =
      .error .attributeError ∧
    extract_decimal (.dict [("Taxes", .str "none")]) ["Taxes", "TotalTaxAmount"] "0" ≠
      .ok 0 := by
  constructor
  · rfl
  · simp [extract_decimal, jTraverse, jGet, List.lookup]

/-- The day enters the days-from-civil formula additively, so two dates of
the same month differ by their day difference. -/
lemma daysFromCivil_day_sub (y : ℤ) (m : ℕ) (d1 d2 : ℕ) :
    daysFromCivil y m d2 - daysFromCivil y m d1 = (d2 : ℤ) - (d1 : ℤ) := by
  simp only [daysFromCivil]
  ring

lemma daysInMonth_ge_28 (y : ℤ) (m : ℕ) : 28 ≤ daysInMonth y m := by
  unfold daysInMonth
  split
  · split <;> norm_num
  · split <;> norm_num

/-- The end of the derived range is the last second of the requested civil
month. -/
lemma getDateRange_end (y : ℤ) (m : ℕ) (h1 : 1 ≤ m) (h2 : m ≤ 12) :
    (getDateRange y m).2 = ⟨y, m, daysInMonth y m, 23, 59, 59⟩ := by
  interval_cases m <;> simp [getDateRange, subOneSecond, daysInMonth, isLeap]

lemma toSec_month_sub (y : ℤ) (m : ℕ) :
    toSec ⟨y, m, daysInMonth y m, 23, 59, 59⟩ - toSec ⟨y, m, 1, 0, 0, 0⟩ =
      86400 * ((daysInMonth y m : ℤ) - 1) + 86399 := by
  simp only [toSec]
  have h := daysFromCivil_day_sub y m 1 (daysInMonth y m)
  push_cast at h ⊢
  linarith

/-- C8: for every valid (year, month) the derived interval has start
strictly before end as UTC instants — for any assignment of the two Pacific
UTC offsets (25200 for PDT, 28800 for PST) to the two endpoints — and the
end instant, viewed in the reference timezone, is the last second of the
same civil month as the start (same year and month, day within the month);
for December of year y the end boundary is January 1 of year y+1 minus one
second, i.e. December 31, 23:59:59. -/
theorem date_range_within_month (y : ℤ) (m : ℕ) (h1 : 1 ≤ m) (h2 : m ≤ 12)
    (off1 off2 : ℤ)
    (ho1 : off1 = 25200 ∨ off1 = 28800) (ho2 : off2 = 25200 ∨ off2 = 28800) :
    utcSec (getDateRange y m).1 off1 < utcSec (getDateRange y m).2 off2 ∧
    toSec (getDateRange y m).1 < toSec (getDateRange y m).2 ∧
    ((getDateRange y m).2).year = y ∧ ((getDateRange y m).2).month = m ∧
    1 ≤ ((getDateRange y m).2).day ∧
    ((getDateRange y m).2).day ≤ daysInMonth y m ∧
    (m = 12 →
      (getDateRange y m).2 = subOneSecond ⟨y + 1, 1, 1, 0, 0, 0⟩ ∧
      (getDateRange y m).2 = ⟨y, 12, 31, 23, 59, 59⟩) := by
  have hend := getDateRange_end y m h1 h2
  have hstart : (getDateRange y m).1 = ⟨y, m, 1, 0, 0, 0⟩ := rfl
  have hdim : 28 ≤ daysInMonth y m := daysInMonth_ge_28 y m
  have hdimZ : (28 : ℤ) ≤ (daysInMonth y m : ℤ) := by exact_mod_cast hdim
  have hsub := toSec_month_sub y m
  have hlt : toSec (getDateRange y m).1 < toSec (getDateRange y m).2 := by
    rw [hstart, hend]
    linarith
  refine ⟨?_, hlt, ?_, ?_, ?_, ?_, ?_⟩
  · unfold utcSec
    rw [hstart, hend]
    rcases ho1 with h | h <;> rcases ho2 with h' | h' <;> subst h <;> subst h' <;>
      linarith
  · rw [hend]
  · rw [hend]
  · rw [hend]
    show 1 ≤ daysInMonth y m
    omega
  · rw [hend]
  · intro hm
    subst hm
    refine ⟨rfl, ?_⟩
    rw [hend]
    norm_num [daysInMonth]

/-- Witness for C8 at December 2024 with the PDT offset on the start and
the PST offset on the end. -/
theorem date_range_within_month_witness :
    utcSec (getDateRange 2024 12).1 25200 < utcSec (getDateRange 2024 12).2 28800 ∧
    toSec (getDateRange 2024 12).1 < toSec (getDateRange 2024 12).2 ∧
    ((getDateRange 2024 12).2).year = 2024 ∧ ((getDateRange 2024 12).2).month = 12 ∧
    1 ≤ ((getDateRange 2024 12).2).day ∧
    ((getDateRange 2024 12).2).day ≤ daysInMonth 2024 12 ∧
    (12 = 12 →
      (getDateRange 2024 12).2 = subOneSecond ⟨2024 + 1, 1, 1, 0, 0, 0⟩ ∧
      (getDateRange 2024 12).2 = ⟨2024, 12, 31, 23, 59, 59⟩) :=
  date_range_within_month 2024 12 (by norm_num) (by norm_num) 25200 28800
    (Or.inl rfl) (Or.inr rfl)

/-- C9 counterexample: a nonempty fetched fee list in which no transaction
carries a truthy ORDER_ID reference (here a single fee referencing a
payout).  The claim says such fees are silently excluded and nothing is
raised; in the code `get_ad_fees_dataframe` then returns the column-less
`pd.DataFrame([])`, the `if ad_transactions` guard bypasses the columned
fallback frame, and `pd.merge(..., on='OrderID')` raises an uncaught
KeyError — the merged output that silent exclusion would give (the sales
row with ad fee 0) is never produced. -/
theorem detached_fees_merge_error_counterexample :
    getAdFees [⟨[⟨"PAYOUT", "P1"⟩], 5⟩] = [] ∧
    reconcileMerge [⟨[⟨"PAYOUT", "P1"⟩], 5⟩] [⟨"O3", "U", 27, 10, 0, 0, 0, 0, 0⟩] =
      .error .keyErrorOrderId ∧
    reconcileMerge [⟨[⟨"PAYOUT", "P1"⟩], 5⟩] [⟨"O3", "U", 27, 10, 0, 0, 0, 0, 0⟩] ≠
      .ok (mergeNetSale [⟨"O3", "U", 27, 10, 0, 0, 0, 0, 0⟩] []) := by
  refine ⟨rfl, rfl, ?_⟩
  simp [reconcileMerge, getAdFees]

/-- C9 amended: at the row level, a fee transaction with no ORDER_ID
reference contributes no ad-fee row, a fee row whose order identifier
matches no sales row changes nothing in the merged output, and a sales row
with no matching fee rows is still emitted with an ad fee of zero — and
the merge that applies these rules executes without error whenever the
sales rows are nonempty and either the fetched fee list is empty (the
columned fallback frame is used) or at least one fee yields an ad-fee row;
but when the fetched fee list is nonempty and no fee yields a row, the
ad-fees frame has no OrderID column and the merge raises a KeyError
instead of silently excluding the fees. -/
theorem fee_matcher_exclusion_conditional :
    (∀ (l1 l2 : List FeeTx) (tx : FeeTx),
        tx.references.find? (fun r => r.referenceType == "ORDER_ID") = none →
        getAdFees (l1 ++ tx :: l2) = getAdFees (l1 ++ l2)) ∧
    (∀ (sales : List UnitRow) (fees : List (String × ℚ)) (oid : String) (amt : ℚ),
        (∀ s ∈ sales, s.orderId ≠ oid) →
        mergeNetSale sales (fees ++ [(oid, amt)]) = mergeNetSale sales fees) ∧
    (∀ (s : UnitRow) (fees : List (String × ℚ)),
        fees.filter (fun f => f.1 == s.orderId) = [] →
        mergeNetSale [s] fees =
          [⟨s.title, s.salePrice, quantize2 (s.netSaleWithoutAdFee - 0)⟩]) ∧
    (∀ (adTxs : List FeeTx) (sales : List UnitRow),
        sales ≠ [] → getAdFees adTxs ≠ [] →
        reconcileMerge adTxs sales = .ok (mergeNetSale sales (getAdFees adTxs))) ∧
    (∀ sales : List UnitRow, sales ≠ [] →
        reconcileMerge [] sales = .ok (mergeNetSale sales [])) ∧
    (∀ (adTxs : List FeeTx) (sales : List UnitRow),
        adTxs ≠ [] → getAdFees adTxs = [] →
        reconcileMerge adTxs sales = .error .keyErrorOrderId) := by
  refine ⟨?_, ?_, ?_, ?_, ?_, ?_⟩
  · intro l1 l2 tx h
    unfold getAdFees
    rw [List.filterMap_append, List.filterMap_append]
    congr 1
    rw [List.filterMap_cons]
    simp [h]
  · intro sales fees oid amt
    induction sales with
    | nil => intro _; rfl
    | cons s ss ih =>
      intro h
      have hs : (oid == s.orderId) = false := by
        have := h s (by simp)
        simp [Ne.symm this]
      have hfil : (fees ++ [(oid, amt)]).filter (fun f => f.1 == s.orderId) =
          fees.filter (fun f => f.1 == s.orderId) := by
        rw [List.filter_append]
        simp [List.filter, hs]
      have hss : ∀ x ∈ ss, x.orderId ≠ oid := fun x hx => h x (by simp [hx])
      unfold mergeNetSale
      simp only [List.flatMap_cons]
      rw [hfil]
      have ihe := ih hss
      unfold mergeNetSale at ihe
      rw [ihe]
  · intro s fees h
    unfold mergeNetSale
    simp only [List.flatMap_cons, List.flatMap_nil, List.append_nil]
    rw [h]
  · intro adTxs sales h1 h2
    unfold reconcileMerge
    rw [if_pos]
    simp [List.isEmpty_iff, h1, h2]
  · intro sales h1
    unfold reconcileMerge
    rw [if_pos]
    · rfl
    · simp [List.isEmpty_iff, h1]
  · intro adTxs sales h1 h2
    unfold reconcileMerge
    rw [if_neg]
    simp [List.isEmpty_iff, h1, h2]

/-- Witness for C9 amended: a fee with only an OTHER reference adds no
row; an unknown order identifier O9 leaves the merge unchanged; the
unmatched sales row for O1 is exported with ad fee 0; a fee list with one
ORDER_ID fee merges without error; and a nonempty fee list yielding no
ad-fee row raises the KeyError. -/
theorem fee_matcher_exclusion_conditional_witness :
    getAdFees [⟨[⟨"OTHER", "X"⟩], 5⟩] = getAdFees [] ∧
    mergeNetSale [⟨"O1", "T", 27, 10, 0, 0, 0, 0, 0⟩] ([] ++ [("O9", 1)]) =
      mergeNetSale [⟨"O1", "T", 27, 10, 0, 0, 0, 0, 0⟩] [] ∧
    mergeNetSale [⟨"O1", "T", 27, 10, 0, 0, 0, 0, 0⟩] [("O9", 1)] =
      [⟨"T", 27, quantize2 ((10 : ℚ) - 0)⟩] ∧
    reconcileMerge [⟨[⟨"ORDER_ID", "O7"⟩], 3⟩] [⟨"O1", "T", 27, 10, 0, 0, 0, 0, 0⟩] =
      .ok (mergeNetSale [⟨"O1", "T", 27, 10, 0, 0, 0, 0, 0⟩]
        (getAdFees [⟨[⟨"ORDER_ID", "O7"⟩], 3⟩])) ∧
    reconcileMerge [⟨[⟨"OTHER", "X"⟩], 5⟩] [⟨"O1", "T", 27, 10, 0, 0, 0, 0, 0⟩] =
      .error .keyErrorOrderId :=
  ⟨fee_matcher_exclusion_conditional.1 [] [] ⟨[⟨"OTHER", "X"⟩], 5⟩ rfl,
   fee_matcher_exclusion_conditional.2.1 [⟨"O1", "T", 27, 10, 0, 0, 0, 0, 0⟩] []
     "O9" 1 (by simp),
   fee_matcher_exclusion_conditional.2.2.1 ⟨"O1", "T", 27, 10, 0, 0, 0, 0, 0⟩
     [("O9", 1)] rfl,
   fee_matcher_exclusion_conditional.2.2.2.1 [⟨[⟨"ORDER_ID", "O7"⟩], 3⟩]
     [⟨"O1", "T", 27, 10, 0, 0, 0, 0, 0⟩] (by simp)
     (by rw [show getAdFees [⟨[⟨"ORDER_ID", "O7"⟩], 3⟩] = [("O7", quantize2 3)] from rfl]
         exact List.cons_ne_nil _ _),
   fee_matcher_exclusion_conditional.2.2.2.2.2 [⟨[⟨"OTHER", "X"⟩], 5⟩]
     [⟨"O1", "T", 27, 10, 0, 0, 0, 0, 0⟩] (List.cons_ne_nil _ _) rfl⟩

end EbayAPI
